import Mathlib

/-!
Shallow embedding of the Android pipe MMIO device control core from
src/hw/misc/android_pipe.c (the "goldfish pipe" / qemu_pipe device).

The device state (struct PipeDevice, lines 179-200) is modelled by the
structure PipeDevice below.  The intrusive singly-linked pipe list is
modelled by two lists of channel ids (dev->pipes is the traversal cursor,
dev->save_pipes the saved head); pipe records (struct HwPipe wanted/closed
fields) live in an association list keyed by the 64-bit channel id, which
models the GHashTable pipes_by_channel.  Channel ids are unique across live
pipes (OPEN refuses duplicates), so the id is a faithful stand-in for the
node pointer identity used by the C code.

Calls into code outside this file's source (service handlers
android_pipe_poll/recv/send reached through the pipe handler, and the
cpu_physical_memory_map/read/write guest-memory primitives) are modelled by
an explicit environment (HostEnv) of pure functions, as the spec describes
them in its section 6.6.
-/

set_option autoImplicit false

namespace AndroidPipe

/-- Modelled from the spec: command codes (spec section 6.2) come from the
goldfish pipe header, which is not under src/; only their wire values matter
and they follow the guest kernel driver. -/
def PIPE_CMD_OPEN : Nat := 1

def PIPE_CMD_CLOSE : Nat := 2

def PIPE_CMD_POLL : Nat := 3

def PIPE_CMD_WRITE_BUFFER : Nat := 4

def PIPE_CMD_WAKE_ON_WRITE : Nat := 5

def PIPE_CMD_READ_BUFFER : Nat := 6

def PIPE_CMD_WAKE_ON_READ : Nat := 7

/-- Modelled from the spec: status codes (spec section 6.3), negative small
integers from the goldfish pipe header (not under src/). -/
def PIPE_ERROR_INVAL : Int := -1

def PIPE_ERROR_AGAIN : Int := -2

def PIPE_ERROR_NOMEM : Int := -3

def PIPE_ERROR_IO : Int := -4

/-- Modelled from the spec: wake flag bits (spec section 6.4), single-bit
masks from the goldfish pipe header (not under src/). -/
def PIPE_WAKE_CLOSED : Nat := 1

def PIPE_WAKE_READ : Nat := 2

def PIPE_WAKE_WRITE : Nat := 4

/-- The per-channel mutable state of struct HwPipe (android_pipe.c lines
117-125): the 8-bit wake mask `wanted` and the host-`closed` flag.  The
channel id itself is the key under which the record is stored. -/
structure PipeRec where
  wanted : Nat
  closed : Bool
  deriving DecidableEq

/-- struct PipeDevice (android_pipe.c lines 179-200).  `pipes` is the
traversal-list cursor, `save_pipes` the saved head, both as lists of channel
ids; `table` models the pipes_by_channel hash table as an association list
keyed by channel id. -/
structure PipeDevice where
  pipes : List Nat
  save_pipes : List Nat
  cache_pipe : Option Nat
  cache_pipe_64bit : Option Nat
  table : List (Nat × PipeRec)
  address : Nat
  size : Nat
  status : Int
  channel : Nat
  wakes : Nat
  params_addr : Nat
  deriving DecidableEq

/-- The 32-bit packed-parameter struct access_params (spec section 6.5);
all fields are u32 in guest memory.  The header defining it is not under
src/. -/
structure Aps32 where
  channel : Nat
  size : Nat
  address : Nat
  cmd : Nat
  result : Int
  flags : Nat
  deriving DecidableEq

/-- The 64-bit packed-parameter struct access_params_64 (spec section 6.5);
channel and address are u64, the rest u32. -/
structure Aps64 where
  channel : Nat
  size : Nat
  address : Nat
  cmd : Nat
  result : Int
  flags : Nat
  deriving DecidableEq

/-- Modelled from the spec: the external capabilities of spec section 6.6
(service handlers and guest physical memory), which live outside src/.
`poll`, `recv` and `send` return the signed handler status for the channel
(recv and send also see the buffer size); `physMap phys size w` returns
`some l` when cpu_physical_memory_map succeeds with mapped length `l`, and
`none` when it returns NULL; `readAps32`/`readAps64` decode the guest
struct at params_addr in the 32-bit resp. 64-bit layout. -/
structure HostEnv where
  poll : Nat → Int
  recv : Nat → Nat → Int
  send : Nat → Nat → Int
  physMap : Nat → Nat → Bool → Option Nat
  readAps32 : Nat → Aps32
  readAps64 : Nat → Aps64

/-- g_hash_table_lookup keyed by channel id. -/
def tlookup (t : List (Nat × PipeRec)) (c : Nat) : Option PipeRec :=
  (t.find? (fun e => e.1 == c)).map (fun e => e.2)

/-- Update the record stored under key `c` (the C code mutates the HwPipe
node in place; keys are unique among live pipes). -/
def tmodify (t : List (Nat × PipeRec)) (c : Nat) (f : PipeRec → PipeRec) :
    List (Nat × PipeRec) :=
  t.map (fun e => if e.1 = c then (e.1, f e.2) else e)

/-- g_hash_table_remove keyed by channel id (a hash table holds at most one
entry per key, so removing the first matching entry is faithful). -/
def tremove (t : List (Nat × PipeRec)) (c : Nat) : List (Nat × PipeRec) :=
  t.eraseP (fun e => e.1 == c)

/-- The `wanted` field of the pipe node with channel id `c` (the C reads it
through a pointer; live callers always hold a table member). -/
def wantedIn (t : List (Nat × PipeRec)) (c : Nat) : Nat :=
  ((tlookup t c).map (fun p => p.wanted)).getD 0

/-- The `closed` field of the pipe node with channel id `c`. -/
def closedIn (t : List (Nat × PipeRec)) (c : Nat) : Bool :=
  ((tlookup t c).map (fun p => p.closed)).getD false

/-- get_and_clear_pipe_wanted (android_pipe.c lines 127-133): returns the
pipe's wanted mask and zeroes it, in one step under the channel lock. -/
def get_and_clear_pipe_wanted (dev : PipeDevice) (c : Nat) : Nat × PipeDevice :=
  (wantedIn dev.table c,
   { dev with table := tmodify dev.table c (fun p => { p with wanted := 0 }) })

/-- set_pipe_wanted_bits (android_pipe.c lines 135-139): ORs `val` into the
pipe's wanted mask under the channel lock. -/
def set_pipe_wanted_bits (dev : PipeDevice) (c : Nat) (val : Nat) : PipeDevice :=
  { dev with table := tmodify dev.table c (fun p => { p with wanted := p.wanted ||| val }) }

/-- get_and_clear_cache_pipe (android_pipe.c lines 256-267): consume the
64-bit shadow slot first, else the main fast-path slot. -/
def get_and_clear_cache_pipe (dev : PipeDevice) : Option Nat × PipeDevice :=
  match dev.cache_pipe_64bit with
  | some c => (some c, { dev with cache_pipe_64bit := none })
  | none => (dev.cache_pipe, { dev with cache_pipe := none })

/-- set_cache_pipe (android_pipe.c lines 269-273). -/
def set_cache_pipe (dev : PipeDevice) (c : Nat) : PipeDevice :=
  { dev with cache_pipe := some c }

/-- clear_cache_pipe_if_equal (android_pipe.c lines 275-284). -/
def clear_cache_pipe_if_equal (dev : PipeDevice) (c : Nat) : PipeDevice :=
  { dev with
    cache_pipe := if dev.cache_pipe = some c then none else dev.cache_pipe,
    cache_pipe_64bit :=
      if dev.cache_pipe_64bit = some c then none else dev.cache_pipe_64bit }

/-- map_guest_buffer (android_pipe.c lines 296-316): succeeds iff
cpu_physical_memory_map returns a pointer and the mapped length equals the
requested size (a short mapping is unmapped and treated as failure). -/
def map_guest_buffer (env : HostEnv) (phys : Nat) (size : Nat) (is_write : Bool) : Bool :=
  match env.physMap phys size is_write with
  | none => false
  | some l => l == size

/-- pipeDevice_doCommand (android_pipe.c lines 318-436): the command engine,
dispatching on the latched command with the channel resolved from the
latched channel register. -/
def pipeDevice_doCommand (env : HostEnv) (dev : PipeDevice) (command : Nat) :
    PipeDevice :=
  let pipe? := tlookup dev.table dev.channel
  if command ≠ PIPE_CMD_OPEN ∧ pipe? = none then
    { dev with status := PIPE_ERROR_INVAL }
  else if (match pipe? with | some p => p.closed | none => false) = true ∧
      command ≠ PIPE_CMD_CLOSE then
    { dev with status := PIPE_ERROR_IO }
  else if command = PIPE_CMD_OPEN then
    match pipe? with
    | some _ => { dev with status := PIPE_ERROR_INVAL }
    | none =>
      { dev with
        pipes := dev.channel :: dev.pipes,
        save_pipes := dev.channel :: dev.pipes,
        status := 0,
        table := (dev.channel, { wanted := 0, closed := false }) :: dev.table }
  else if command = PIPE_CMD_CLOSE then
    if dev.channel ∈ dev.pipes then
      let ps := dev.pipes.erase dev.channel
      let d1 := { dev with
        pipes := ps,
        save_pipes := ps,
        table := tremove dev.table dev.channel }
      clear_cache_pipe_if_equal d1 dev.channel
    else
      { dev with status := PIPE_ERROR_INVAL }
  else if command = PIPE_CMD_POLL then
    { dev with status := env.poll dev.channel }
  else if command = PIPE_CMD_READ_BUFFER then
    if map_guest_buffer env dev.address dev.size true then
      { dev with status := env.recv dev.channel dev.size }
    else
      { dev with status := PIPE_ERROR_INVAL }
  else if command = PIPE_CMD_WRITE_BUFFER then
    if map_guest_buffer env dev.address dev.size false then
      { dev with status := env.send dev.channel dev.size }
    else
      { dev with status := PIPE_ERROR_INVAL }
  else if command = PIPE_CMD_WAKE_ON_READ then
    if wantedIn dev.table dev.channel &&& PIPE_WAKE_READ = 0 then
      { set_pipe_wanted_bits dev dev.channel PIPE_WAKE_READ with status := 0 }
    else
      { dev with status := 0 }
  else if command = PIPE_CMD_WAKE_ON_WRITE then
    if wantedIn dev.table dev.channel &&& PIPE_WAKE_WRITE = 0 then
      { set_pipe_wanted_bits dev dev.channel PIPE_WAKE_WRITE with status := 0 }
    else
      { dev with status := 0 }
  else
    dev

/-- uint64_set_low (android_pipe.c lines 84-87): replace the low 32 bits of
a 64-bit register with the (truncated) written value. -/
def uint64_set_low (x v : Nat) : Nat :=
  x / 2 ^ 32 * 2 ^ 32 + v % 2 ^ 32

/-- uint64_set_high (android_pipe.c lines 89-92): replace the high 32 bits
of a 64-bit register with the (truncated) written value. -/
def uint64_set_high (x v : Nat) : Nat :=
  x % 2 ^ 32 + v % 2 ^ 32 * 2 ^ 32

/-- Modelled from the spec: the PIPE_REG_* offsets (spec section 4.E) come
from the goldfish pipe header, which is not under src/; the dispatch is by
symbolic register name, with `unknownReg` standing for every offset outside
the table. -/
inductive PipeReg where
  | command
  | size
  | address
  | addressHigh
  | channel
  | channelHigh
  | paramsAddrLow
  | paramsAddrHigh
  | accessParams
  | status
  | wakes
  | version
  | unknownReg
  deriving DecidableEq

/-- The write-back of the packed-parameter struct performed at the end of
the PIPE_REG_ACCESS_PARAMS path (android_pipe.c lines 518-524), in the
detected shape. -/
inductive ApsWriteBack where
  | w32 (addr : Nat) (aps : Aps32)
  | w64 (addr : Nat) (aps : Aps64)
  deriving DecidableEq

/-- The register latching performed by the ACCESS_PARAMS path for a
detected 32-bit struct (android_pipe.c lines 506-510); all three fields are
u32 in this layout. -/
def latch32 (dev : PipeDevice) (a : Aps32) : PipeDevice :=
  { dev with
    channel := a.channel % 2 ^ 32,
    size := a.size % 2 ^ 32,
    address := a.address % 2 ^ 32 }

/-- The register latching performed by the ACCESS_PARAMS path for a
detected 64-bit struct (android_pipe.c lines 501-505); channel and address
are u64, size is u32. -/
def latch64 (dev : PipeDevice) (a : Aps64) : PipeDevice :=
  { dev with
    channel := a.channel % 2 ^ 64,
    size := a.size % 2 ^ 32,
    address := a.address % 2 ^ 64 }

/-- pipe_dev_write (android_pipe.c lines 438-534).  Returns the new device
state together with the guest-memory struct write-back performed by the
ACCESS_PARAMS path, if any.  Unknown register writes are logged and
ignored; so are writes to the read-only registers, which fall into the same
default case of the C switch. -/
def pipe_dev_write (env : HostEnv) (dev : PipeDevice) (reg : PipeReg) (value : Nat) :
    PipeDevice × Option ApsWriteBack :=
  match reg with
  | .command => (pipeDevice_doCommand env dev (value % 2 ^ 32), none)
  | .size => ({ dev with size := value % 2 ^ 32 }, none)
  | .address => ({ dev with address := uint64_set_low dev.address value }, none)
  | .addressHigh => ({ dev with address := uint64_set_high dev.address value }, none)
  | .channel => ({ dev with channel := uint64_set_low dev.channel value }, none)
  | .channelHigh => ({ dev with channel := uint64_set_high dev.channel value }, none)
  | .paramsAddrHigh =>
    ({ dev with params_addr := uint64_set_high dev.params_addr value }, none)
  | .paramsAddrLow =>
    ({ dev with params_addr := uint64_set_low dev.params_addr value }, none)
  | .accessParams =>
    if dev.params_addr = 0 then (dev, none)
    else
      let a32 := env.readAps32 dev.params_addr
      if a32.flags % 2 ^ 32 = 0 then
        let d1 := latch32 dev a32
        let cmd := a32.cmd % 2 ^ 32
        if cmd ≠ PIPE_CMD_READ_BUFFER ∧ cmd ≠ PIPE_CMD_WRITE_BUFFER then (d1, none)
        else
          let d2 := pipeDevice_doCommand env d1 cmd
          (d2, some (ApsWriteBack.w32 dev.params_addr { a32 with result := d2.status }))
      else
        let a64 := env.readAps64 dev.params_addr
        let d1 := latch64 dev a64
        let cmd := a64.cmd % 2 ^ 32
        if cmd ≠ PIPE_CMD_READ_BUFFER ∧ cmd ≠ PIPE_CMD_WRITE_BUFFER then (d1, none)
        else
          let d2 := pipeDevice_doCommand env d1 cmd
          (d2, some (ApsWriteBack.w64 dev.params_addr { a64 with result := d2.status }))
  | _ => (dev, none)

/-- The outcome of one MMIO read: the 32-bit value handed to the guest, the
new device state, the action on the IRQ line performed during the read
(`some false` is a qemu_set_irq deassert, `some true` an assert, `none`
leaves the line alone), and whether a C assert fired. -/
structure MmioReadOut where
  value : Nat
  dev : PipeDevice
  irq : Option Bool
  fault : Bool
  deriving DecidableEq

/-- The traversal-list scan of the wake scheduler (android_pipe.c lines
558-561 and 607-610): walk the cursor list skipping pipes with a zero
wanted mask; on success return the found channel together with the rest of
the list after it. -/
def findSignaled (t : List (Nat × PipeRec)) : List Nat → Option (Nat × List Nat)
  | [] => none
  | c :: rest => if wantedIn t c ≠ 0 then some (c, rest) else findSignaled t rest

/-- The PIPE_REG_CHANNEL case of pipe_dev_read (android_pipe.c lines
548-586): the low half of a drain round.  A fast-path cache hit is consumed
(wanted latched into wakes and cleared); otherwise the scan either consumes
the first signaled pipe and advances the cursor past it, or restores the
cursor from the saved head, deasserting the IRQ when the cursor list had
been non-empty.  Consuming the last list element also deasserts the IRQ. -/
def pipe_dev_read_channel (dev : PipeDevice) : MmioReadOut :=
  match get_and_clear_cache_pipe dev with
  | (some c, d1) =>
    let wd := get_and_clear_pipe_wanted d1 c
    { value := c % 2 ^ 32, dev := { wd.2 with wakes := wd.1 }, irq := none,
      fault := false }
  | (none, d1) =>
    let hadPipesInList := d1.pipes ≠ []
    match findSignaled d1.table d1.pipes with
    | none =>
      { value := 0, dev := { d1 with pipes := d1.save_pipes },
        irq := if hadPipesInList then some false else none, fault := false }
    | some (c, rest) =>
      let wd := get_and_clear_pipe_wanted d1 c
      { value := c % 2 ^ 32,
        dev := { wd.2 with wakes := wd.1, pipes := rest },
        irq := if rest = [] then some false else none, fault := false }

/-- The PIPE_REG_CHANNEL_HIGH case of pipe_dev_read (android_pipe.c lines
588-629): the high half of a drain round.  The selected pipe is not
consumed: a cache hit is parked in cache_pipe_64bit, a scan hit becomes the
new cursor head, so the following low read sees the same pipe.  Both found
paths assert that the high 32 bits of the id are nonzero; `fault` records
that assertion firing. -/
def pipe_dev_read_channel_high (dev : PipeDevice) : MmioReadOut :=
  match get_and_clear_cache_pipe dev with
  | (some c, d1) =>
    { value := c / 2 ^ 32 % 2 ^ 32,
      dev := { d1 with cache_pipe_64bit := some c }, irq := none,
      fault := c / 2 ^ 32 % 2 ^ 32 == 0 }
  | (none, d1) =>
    let hadPipesInList := d1.pipes ≠ []
    match findSignaled d1.table d1.pipes with
    | none =>
      { value := 0, dev := { d1 with pipes := d1.save_pipes },
        irq := if hadPipesInList then some false else none, fault := false }
    | some (c, rest) =>
      { value := c / 2 ^ 32 % 2 ^ 32,
        dev := { d1 with pipes := c :: rest }, irq := none,
        fault := c / 2 ^ 32 % 2 ^ 32 == 0 }

/-- pipe_dev_read (android_pipe.c lines 537-649): the MMIO read dispatcher.
Unknown offsets are logged and read as 0; so do reads of the write-only
registers, through the same default case. -/
def pipe_dev_read (dev : PipeDevice) (reg : PipeReg) : MmioReadOut :=
  match reg with
  | .status =>
    { value := (dev.status % 2 ^ 32).toNat, dev := dev, irq := none, fault := false }
  | .channel => pipe_dev_read_channel dev
  | .channelHigh => pipe_dev_read_channel_high dev
  | .wakes => { value := dev.wakes, dev := dev, irq := none, fault := false }
  | .paramsAddrHigh =>
    { value := dev.params_addr / 2 ^ 32 % 2 ^ 32, dev := dev, irq := none,
      fault := false }
  | .paramsAddrLow =>
    { value := dev.params_addr % 2 ^ 32, dev := dev, irq := none, fault := false }
  | .version => { value := 1, dev := dev, irq := none, fault := false }
  | _ => { value := 0, dev := dev, irq := none, fault := false }

/-- qemu2_android_pipe_wake (android_pipe.c lines 702-717): the host wake
callback for the pipe with channel id `c`.  ORs the (8-bit truncated) flags
into the pipe's wanted mask, publishes the pipe in the fast-path slot
unless it is closed, and asserts the IRQ. -/
def qemu2_android_pipe_wake (dev : PipeDevice) (c : Nat) (flags : Nat) :
    PipeDevice × Option Bool :=
  let d1 := set_pipe_wanted_bits dev c (flags % 2 ^ 8)
  let d2 := if closedIn d1.table c then d1 else set_cache_pipe d1 c
  (d2, some true)

/-- qemu2_android_pipe_close (android_pipe.c lines 719-729): the host close
callback; sets `closed` once and delivers a synthetic PIPE_WAKE_CLOSED wake
through the standard wake path. -/
def qemu2_android_pipe_close (dev : PipeDevice) (c : Nat) :
    PipeDevice × Option Bool :=
  if closedIn dev.table c then (dev, none)
  else
    qemu2_android_pipe_wake
      { dev with table := tmodify dev.table c (fun p => { p with closed := true }) }
      c PIPE_WAKE_CLOSED

/-- A sequence of host wake callbacks against the pipe with channel id `c`
(claim C9's wake history), keeping only the device state. -/
def applyWakes (dev : PipeDevice) (c : Nat) (fs : List Nat) : PipeDevice :=
  fs.foldl (fun d f => (qemu2_android_pipe_wake d c f).1) dev

/-! Concrete fixtures used by counterexamples and witnesses. -/

/-- A trivial host environment: handlers that transfer 0 bytes and a guest
memory in which every mapping request succeeds in full. -/
def env0 : HostEnv :=
  { poll := fun _ => 0, recv := fun _ _ => 0, send := fun _ _ => 0,
    physMap := fun _ s _ => some s,
    readAps32 := fun _ =>
      { channel := 0, size := 0, address := 0, cmd := 0, result := 0, flags := 0 },
    readAps64 := fun _ =>
      { channel := 0, size := 0, address := 0, cmd := 0, result := 0, flags := 0 } }

/-- A device with one live, idle pipe on channel 5 latched, and a prior
error still in the status register (spec scenario: a failed POLL on a
host-closed pipe leaves PIPE_ERROR_IO there). -/
def dev0 : PipeDevice :=
  { pipes := [5], save_pipes := [5], cache_pipe := none, cache_pipe_64bit := none,
    table := [(5, { wanted := 0, closed := false })],
    address := 0, size := 0, status := -4, channel := 5, wakes := 0, params_addr := 0 }

/-- A device whose only pipe (channel id with nonzero high half) is
signaled: its CHANNEL read both returns the id and drains the list. -/
def devC3 : PipeDevice :=
  { pipes := [4294967297], save_pipes := [4294967297],
    cache_pipe := none, cache_pipe_64bit := none,
    table := [(4294967297, { wanted := 2, closed := false })],
    address := 0, size := 0, status := 0, channel := 0, wakes := 0, params_addr := 0 }

/-- A device whose only pipe is signaled and has channel id 1, whose high
32 bits are zero. -/
def devC6 : PipeDevice :=
  { pipes := [1], save_pipes := [1], cache_pipe := none, cache_pipe_64bit := none,
    table := [(1, { wanted := 2, closed := false })],
    address := 0, size := 0, status := 0, channel := 0, wakes := 0, params_addr := 0 }

/-- A device whose latched channel 3 is live but host-closed. -/
def devC7 : PipeDevice :=
  { pipes := [3], save_pipes := [3], cache_pipe := none, cache_pipe_64bit := none,
    table := [(3, { wanted := 0, closed := true })],
    address := 0, size := 0, status := 0, channel := 3, wakes := 0, params_addr := 0 }

/-- A device with an idle pipe (channel 9) ahead of a signaled pipe whose
id 0x700000005 has nonzero high bits, for exercising the scan path of the
CHANNEL_HIGH/CHANNEL read pair. -/
def devC4 : PipeDevice :=
  { pipes := [9, 30064771077], save_pipes := [9, 30064771077],
    cache_pipe := none, cache_pipe_64bit := none,
    table := [(9, { wanted := 0, closed := false }),
              (30064771077, { wanted := 2, closed := false })],
    address := 0, size := 0, status := 0, channel := 0, wakes := 0, params_addr := 0 }

/-- A device with no pipe under the latched channel 77. -/
def devW2 : PipeDevice :=
  { pipes := [], save_pipes := [], cache_pipe := none, cache_pipe_64bit := none,
    table := [], address := 0, size := 0, status := 0, channel := 77, wakes := 0,
    params_addr := 0 }

/-- An environment whose guest memory holds a 64-bit packed-parameter
struct (flags nonzero) requesting READ_BUFFER on channel 5. -/
def env8 : HostEnv :=
  { env0 with
    readAps32 := fun _ =>
      { channel := 5, size := 3, address := 96, cmd := 6, result := 0, flags := 1 },
    readAps64 := fun _ =>
      { channel := 5, size := 3, address := 96, cmd := 6, result := 0, flags := 1 } }

/-- An environment whose guest memory holds a 32-bit packed-parameter
struct (flags zero) requesting POLL, which the ACCESS_PARAMS path must
ignore. -/
def env10 : HostEnv :=
  { env0 with
    readAps32 := fun _ =>
      { channel := 7, size := 2, address := 40, cmd := 3, result := 9, flags := 0 } }

/-! Helper lemmas about the association-list table and the scan. -/

theorem tlookup_none_of_not_mem_keys {t : List (Nat × PipeRec)} {c : Nat}
    (h : c ∉ t.map Prod.fst) : tlookup t c = none := by
  induction t with
  | nil => rfl
  | cons e rest ih =>
    simp only [List.map_cons, List.mem_cons, not_or] at h
    have he : (e.1 == c) = false := by
      simpa using fun hc : e.1 = c => h.1 hc.symm
    simp only [tlookup, List.find?, he]
    exact ih h.2

theorem tlookup_tremove_self {t : List (Nat × PipeRec)} {c : Nat}
    (h : (t.map Prod.fst).Nodup) : tlookup (tremove t c) c = none := by
  induction t with
  | nil => rfl
  | cons e rest ih =>
    simp only [List.map_cons, List.nodup_cons] at h
    by_cases hc : e.1 = c
    · have he : (e.1 == c) = true := by simpa using hc
      have : tremove (e :: rest) c = rest := by
        simp [tremove, List.eraseP, he]
      rw [this]
      exact tlookup_none_of_not_mem_keys (hc ▸ h.1)
    · have he : (e.1 == c) = false := by simpa using hc
      have : tremove (e :: rest) c = e :: tremove rest c := by
        simp [tremove, List.eraseP, he]
      rw [this]
      simp only [tlookup, List.find?, he]
      exact ih h.2

theorem tlookup_tmodify_self (t : List (Nat × PipeRec)) (c : Nat)
    (f : PipeRec → PipeRec) :
    tlookup (tmodify t c f) c = (tlookup t c).map f := by
  induction t with
  | nil => rfl
  | cons e rest ih =>
    by_cases hc : e.1 = c
    · simp [tmodify, tlookup, List.find?, hc]
    · have he : (e.1 == c) = false := by simp [hc]
      simp only [tmodify, List.map_cons, if_neg hc]
      simp only [tlookup, List.find?, he]
      simpa [tlookup, tmodify] using ih

theorem findSignaled_some_wanted (t : List (Nat × PipeRec)) :
    ∀ (l : List Nat) (c : Nat) (rest : List Nat),
      findSignaled t l = some (c, rest) → wantedIn t c ≠ 0 := by
  intro l
  induction l with
  | nil => intro c rest h; simp [findSignaled] at h
  | cons a l ih =>
    intro c rest h
    by_cases ha : wantedIn t a ≠ 0
    · simp only [findSignaled, if_pos ha, Option.some.injEq, Prod.mk.injEq] at h
      exact h.1 ▸ ha
    · simp only [findSignaled, if_neg ha] at h
      exact ih c rest h

/-- Claim C2: every command other than OPEN with no live channel under the
latched id sets status to PIPE_ERROR_INVAL and does nothing else; every
command other than CLOSE on a resolved channel with closed = true sets
status to PIPE_ERROR_IO and does nothing else. -/
theorem doCommand_unknown_or_closed (env : HostEnv) (dev : PipeDevice)
    (command : Nat) :
    (command ≠ PIPE_CMD_OPEN → tlookup dev.table dev.channel = none →
      pipeDevice_doCommand env dev command = { dev with status := PIPE_ERROR_INVAL }) ∧
    (∀ p : PipeRec, tlookup dev.table dev.channel = some p → p.closed = true →
      command ≠ PIPE_CMD_CLOSE →
      pipeDevice_doCommand env dev command = { dev with status := PIPE_ERROR_IO }) := by
  constructor
  · intro hcmd hlk
    simp [pipeDevice_doCommand, hlk, hcmd]
  · intro p hlk hcl hcmd
    simp [pipeDevice_doCommand, hlk, hcl, hcmd]

/-- Witness for C2: POLL on an unknown channel (77, empty table) yields
PIPE_ERROR_INVAL, and POLL on the host-closed channel 3 of devC7 yields
PIPE_ERROR_IO, each with no other state change. -/
theorem doCommand_unknown_or_closed_witness :
    pipeDevice_doCommand env0 devW2 PIPE_CMD_POLL = { devW2 with status := PIPE_ERROR_INVAL } ∧
    pipeDevice_doCommand env0 devC7 PIPE_CMD_POLL = { devC7 with status := PIPE_ERROR_IO } :=
  ⟨(doCommand_unknown_or_closed env0 devW2 PIPE_CMD_POLL).1 (by decide) (by decide),
   (doCommand_unknown_or_closed env0 devC7 PIPE_CMD_POLL).2
     { wanted := 0, closed := true } (by decide) (by decide) (by decide)⟩

/-- Counterexample to C7 as stated: the latched channel 3 is already
present in the table, yet OPEN sets status to PIPE_ERROR_IO (the channel is
host-closed, and the closed check at android_pipe.c line 329 runs before
the OPEN case), not PIPE_ERROR_INVAL. -/
theorem open_existing_closed_not_inval :
    tlookup devC7.table devC7.channel = some { wanted := 0, closed := true } ∧
    (pipeDevice_doCommand env0 devC7 PIPE_CMD_OPEN).status = PIPE_ERROR_IO ∧
    PIPE_ERROR_IO ≠ PIPE_ERROR_INVAL := by decide

/-- Claim C7 as amended: an OPEN whose latched id is present and not host-closed
sets status to PIPE_ERROR_INVAL and changes nothing else; when the present
channel is host-closed, OPEN sets status to PIPE_ERROR_IO instead; an OPEN
with a fresh id allocates a channel record, prepends the id to the
traversal list, snapshots the saved head to the new list head, inserts the
mapping, and sets status to 0. -/
theorem open_cmd_spec (env : HostEnv) (dev : PipeDevice) :
    (∀ p : PipeRec, tlookup dev.table dev.channel = some p → p.closed = false →
      pipeDevice_doCommand env dev PIPE_CMD_OPEN = { dev with status := PIPE_ERROR_INVAL }) ∧
    (∀ p : PipeRec, tlookup dev.table dev.channel = some p → p.closed = true →
      pipeDevice_doCommand env dev PIPE_CMD_OPEN = { dev with status := PIPE_ERROR_IO }) ∧
    (tlookup dev.table dev.channel = none →
      pipeDevice_doCommand env dev PIPE_CMD_OPEN =
        { dev with
          pipes := dev.channel :: dev.pipes,
          save_pipes := dev.channel :: dev.pipes,
          table := (dev.channel, { wanted := 0, closed := false }) :: dev.table,
          status := 0 }) := by
  refine ⟨fun p hlk hcl => ?_, fun p hlk hcl => ?_, fun hlk => ?_⟩
  · simp [pipeDevice_doCommand, hlk, hcl]
  · simp [pipeDevice_doCommand, hlk, hcl, PIPE_CMD_OPEN, PIPE_CMD_CLOSE]
  · simp [pipeDevice_doCommand, hlk]

/-- Witness for the amended C7: a double OPEN of the live channel 5 fails
with PIPE_ERROR_INVAL; OPEN of the host-closed channel 3 fails with
PIPE_ERROR_IO; OPEN of the fresh channel 77 creates the channel. -/
theorem open_cmd_spec_witness :
    pipeDevice_doCommand env0 dev0 PIPE_CMD_OPEN = { dev0 with status := PIPE_ERROR_INVAL } ∧
    pipeDevice_doCommand env0 devC7 PIPE_CMD_OPEN = { devC7 with status := PIPE_ERROR_IO } ∧
    pipeDevice_doCommand env0 devW2 PIPE_CMD_OPEN =
      { devW2 with
        pipes := [77], save_pipes := [77],
        table := [(77, { wanted := 0, closed := false })], status := 0 } :=
  ⟨(open_cmd_spec env0 dev0).1 { wanted := 0, closed := false } (by decide) (by decide),
   (open_cmd_spec env0 devC7).2.1 { wanted := 0, closed := true } (by decide) (by decide),
   (open_cmd_spec env0 devW2).2.2 (by decide)⟩

/-- Claim C5: with the latched size 0, READ_BUFFER and WRITE_BUFFER on a live,
non-closed channel succeed with status 0 and change nothing else, under the
spec-modelled guest-memory and handler capabilities (a zero-byte mapping
succeeds with mapped length 0, and the handler transfers 0 bytes). -/
theorem zero_size_transfer (env : HostEnv) (dev : PipeDevice) (p : PipeRec)
    (hlk : tlookup dev.table dev.channel = some p) (hcl : p.closed = false)
    (hsz : dev.size = 0)
    (hmr : env.physMap dev.address 0 true = some 0)
    (hmw : env.physMap dev.address 0 false = some 0)
    (hr : env.recv dev.channel 0 = 0) (hs : env.send dev.channel 0 = 0) :
    pipeDevice_doCommand env dev PIPE_CMD_READ_BUFFER = { dev with status := 0 } ∧
    pipeDevice_doCommand env dev PIPE_CMD_WRITE_BUFFER = { dev with status := 0 } := by
  constructor
  · simp [pipeDevice_doCommand, hlk, hcl, map_guest_buffer, hsz, hmr, hr,
      PIPE_CMD_OPEN, PIPE_CMD_CLOSE, PIPE_CMD_POLL, PIPE_CMD_READ_BUFFER,
      PIPE_CMD_WRITE_BUFFER, PIPE_CMD_WAKE_ON_READ, PIPE_CMD_WAKE_ON_WRITE]
  · simp [pipeDevice_doCommand, hlk, hcl, map_guest_buffer, hsz, hmw, hs,
      PIPE_CMD_OPEN, PIPE_CMD_CLOSE, PIPE_CMD_POLL, PIPE_CMD_READ_BUFFER,
      PIPE_CMD_WRITE_BUFFER, PIPE_CMD_WAKE_ON_READ, PIPE_CMD_WAKE_ON_WRITE]

/-- A device whose channel 5 is in the table but no longer on the traversal
list (the cursor had advanced past it and an OPEN re-snapshotted the saved
head, orphaning it). -/
def devO : PipeDevice :=
  { pipes := [], save_pipes := [], cache_pipe := none, cache_pipe_64bit := none,
    table := [(5, { wanted := 0, closed := false })],
    address := 0, size := 0, status := 0, channel := 5, wakes := 0, params_addr := 0 }

/-- Counterexample to C1 as stated: CLOSE of the live channel 5 removes it
from the table, the list and the cache slots, but the success path of
CMD_CLOSE (android_pipe.c lines 350-374) never assigns dev->status, so the
prior PIPE_ERROR_IO stays in the status register instead of 0. -/
theorem close_leaves_status_counterexample :
    (pipeDevice_doCommand env0 dev0 PIPE_CMD_CLOSE).pipes = [] ∧
    tlookup (pipeDevice_doCommand env0 dev0 PIPE_CMD_CLOSE).table 5 = none ∧
    (pipeDevice_doCommand env0 dev0 PIPE_CMD_CLOSE).cache_pipe = none ∧
    (pipeDevice_doCommand env0 dev0 PIPE_CMD_CLOSE).cache_pipe_64bit = none ∧
    (pipeDevice_doCommand env0 dev0 PIPE_CMD_CLOSE).status = PIPE_ERROR_IO ∧
    PIPE_ERROR_IO ≠ (0 : Int) := by decide

/-- Claim C1 as amended: CLOSE of a live channel on the traversal list removes it
from the table, unlinks it from the list, clears any fast-path cache
reference to it, and leaves the status register unchanged (the success path
does not write status); if the latched id is live but not on the traversal
list, status becomes PIPE_ERROR_INVAL and nothing else changes. -/
theorem close_cmd_spec (env : HostEnv) (dev : PipeDevice) (p : PipeRec)
    (hlk : tlookup dev.table dev.channel = some p)
    (hkeys : (dev.table.map Prod.fst).Nodup) (hpipes : dev.pipes.Nodup) :
    (dev.channel ∈ dev.pipes →
      tlookup (pipeDevice_doCommand env dev PIPE_CMD_CLOSE).table dev.channel = none ∧
      dev.channel ∉ (pipeDevice_doCommand env dev PIPE_CMD_CLOSE).pipes ∧
      (pipeDevice_doCommand env dev PIPE_CMD_CLOSE).cache_pipe ≠ some dev.channel ∧
      (pipeDevice_doCommand env dev PIPE_CMD_CLOSE).cache_pipe_64bit ≠ some dev.channel ∧
      (pipeDevice_doCommand env dev PIPE_CMD_CLOSE).status = dev.status) ∧
    (dev.channel ∉ dev.pipes →
      pipeDevice_doCommand env dev PIPE_CMD_CLOSE = { dev with status := PIPE_ERROR_INVAL }) := by
  constructor
  · intro hmem
    have hred : pipeDevice_doCommand env dev PIPE_CMD_CLOSE =
        clear_cache_pipe_if_equal
          { dev with
            pipes := dev.pipes.erase dev.channel,
            save_pipes := dev.pipes.erase dev.channel,
            table := tremove dev.table dev.channel } dev.channel := by
      simp [pipeDevice_doCommand, hlk, hmem, PIPE_CMD_CLOSE, PIPE_CMD_OPEN]
    rw [hred]
    refine ⟨?_, ?_, ?_, ?_, ?_⟩
    · simpa [clear_cache_pipe_if_equal] using tlookup_tremove_self hkeys
    · simpa [clear_cache_pipe_if_equal] using hpipes.not_mem_erase
    · by_cases hc : dev.cache_pipe = some dev.channel <;>
        simp [clear_cache_pipe_if_equal, hc]
    · by_cases hc : dev.cache_pipe_64bit = some dev.channel <;>
        simp [clear_cache_pipe_if_equal, hc]
    · simp [clear_cache_pipe_if_equal]
  · intro hmem
    simp [pipeDevice_doCommand, hlk, hmem, PIPE_CMD_CLOSE, PIPE_CMD_OPEN]

/-- Witness for the amended C1: closing the live, listed channel 5 of dev0
removes it everywhere and keeps the prior status -4; closing the orphaned
channel 5 of devO (in the table, off the list) yields PIPE_ERROR_INVAL. -/
theorem close_cmd_spec_witness :
    (tlookup (pipeDevice_doCommand env0 dev0 PIPE_CMD_CLOSE).table dev0.channel = none ∧
      dev0.channel ∉ (pipeDevice_doCommand env0 dev0 PIPE_CMD_CLOSE).pipes ∧
      (pipeDevice_doCommand env0 dev0 PIPE_CMD_CLOSE).cache_pipe ≠ some dev0.channel ∧
      (pipeDevice_doCommand env0 dev0 PIPE_CMD_CLOSE).cache_pipe_64bit ≠ some dev0.channel ∧
      (pipeDevice_doCommand env0 dev0 PIPE_CMD_CLOSE).status = dev0.status) ∧
    pipeDevice_doCommand env0 devO PIPE_CMD_CLOSE = { devO with status := PIPE_ERROR_INVAL } :=
  ⟨(close_cmd_spec env0 dev0 { wanted := 0, closed := false }
      (by decide) (by decide) (by decide)).1 (by decide),
   (close_cmd_spec env0 devO { wanted := 0, closed := false }
      (by decide) (by decide) (by decide)).2 (by decide)⟩

/-- Witness for C5: on dev0 (size 0, live channel 5) with the trivial
environment, both buffer commands leave status 0. -/
theorem zero_size_transfer_witness :
    pipeDevice_doCommand env0 dev0 PIPE_CMD_READ_BUFFER = { dev0 with status := 0 } ∧
    pipeDevice_doCommand env0 dev0 PIPE_CMD_WRITE_BUFFER = { dev0 with status := 0 } :=
  zero_size_transfer env0 dev0 { wanted := 0, closed := false }
    (by decide) (by decide) (by decide) (by decide) (by decide) (by decide) (by decide)

/-- Device dev0 with a nonzero params_addr and a clean status register. -/
def dev8 : PipeDevice := { dev0 with params_addr := 64, status := 0 }

/-- Device dev0 with a nonzero params_addr (status register still holds -4). -/
def dev10 : PipeDevice := { dev0 with params_addr := 64 }

/-- The 64-bit packed-parameter struct delivered by env8. -/
def aps8 : Aps64 :=
  { channel := 5, size := 3, address := 96, cmd := 6, result := 0, flags := 1 }

/-- Claim C8: a write to ACCESS_PARAMS with nonzero params_addr reads the 32-bit
struct shape first and uses it when its flags field is 0, otherwise
re-reads the 64-bit shape; it latches channel, size and address from the
detected shape; only READ_BUFFER and WRITE_BUFFER are executed, every other
command value leaves the latched registers as the only effect; after a
buffer command the resulting status is stored in the struct's result field
and the struct is written back in the detected shape. -/
theorem access_params_exec (env : HostEnv) (dev : PipeDevice) (v : Nat)
    (a32 : Aps32) (a64 : Aps64)
    (h32 : env.readAps32 dev.params_addr = a32)
    (h64 : env.readAps64 dev.params_addr = a64)
    (hpa : dev.params_addr ≠ 0) :
    (a32.flags % 2 ^ 32 = 0 →
      ∀ cmd : Nat, cmd = a32.cmd % 2 ^ 32 →
        (cmd = PIPE_CMD_READ_BUFFER ∨ cmd = PIPE_CMD_WRITE_BUFFER →
          pipe_dev_write env dev PipeReg.accessParams v =
            (pipeDevice_doCommand env (latch32 dev a32) cmd,
             some (ApsWriteBack.w32 dev.params_addr
               { a32 with result := (pipeDevice_doCommand env (latch32 dev a32) cmd).status }))) ∧
        (cmd ≠ PIPE_CMD_READ_BUFFER ∧ cmd ≠ PIPE_CMD_WRITE_BUFFER →
          pipe_dev_write env dev PipeReg.accessParams v = (latch32 dev a32, none))) ∧
    (a32.flags % 2 ^ 32 ≠ 0 →
      ∀ cmd : Nat, cmd = a64.cmd % 2 ^ 32 →
        (cmd = PIPE_CMD_READ_BUFFER ∨ cmd = PIPE_CMD_WRITE_BUFFER →
          pipe_dev_write env dev PipeReg.accessParams v =
            (pipeDevice_doCommand env (latch64 dev a64) cmd,
             some (ApsWriteBack.w64 dev.params_addr
               { a64 with result := (pipeDevice_doCommand env (latch64 dev a64) cmd).status }))) ∧
        (cmd ≠ PIPE_CMD_READ_BUFFER ∧ cmd ≠ PIPE_CMD_WRITE_BUFFER →
          pipe_dev_write env dev PipeReg.accessParams v = (latch64 dev a64, none))) := by
  constructor
  · intro hfl cmd hcmd
    subst hcmd
    constructor
    · intro hbuf
      have hnot : ¬(a32.cmd % 2 ^ 32 ≠ PIPE_CMD_READ_BUFFER ∧
          a32.cmd % 2 ^ 32 ≠ PIPE_CMD_WRITE_BUFFER) := by
        rcases hbuf with h | h
        · exact fun hc => hc.1 h
        · exact fun hc => hc.2 h
      simp only [pipe_dev_write, if_neg hpa, h32]
      rw [if_pos hfl, if_neg hnot]
    · intro hnbuf
      simp only [pipe_dev_write, if_neg hpa, h32]
      rw [if_pos hfl, if_pos hnbuf]
  · intro hfl cmd hcmd
    subst hcmd
    constructor
    · intro hbuf
      have hnot : ¬(a64.cmd % 2 ^ 32 ≠ PIPE_CMD_READ_BUFFER ∧
          a64.cmd % 2 ^ 32 ≠ PIPE_CMD_WRITE_BUFFER) := by
        rcases hbuf with h | h
        · exact fun hc => hc.1 h
        · exact fun hc => hc.2 h
      simp only [pipe_dev_write, if_neg hpa, h32, h64]
      rw [if_neg hfl, if_neg hnot]
    · intro hnbuf
      simp only [pipe_dev_write, if_neg hpa, h32, h64]
      rw [if_neg hfl, if_pos hnbuf]

/-- Witness for C8: with env8's guest struct (flags 1, so 64-bit; cmd 6 =
READ_BUFFER on channel 5) the write executes the buffer command and writes
the struct back with the resulting status in its result field. -/
theorem access_params_exec_witness :
    pipe_dev_write env8 dev8 PipeReg.accessParams 0 =
      (pipeDevice_doCommand env8 (latch64 dev8 aps8) 6,
       some (ApsWriteBack.w64 dev8.params_addr
         { aps8 with result := (pipeDevice_doCommand env8 (latch64 dev8 aps8) 6).status })) :=
  (((access_params_exec env8 dev8 0
      { channel := 5, size := 3, address := 96, cmd := 6, result := 0, flags := 1 }
      aps8 rfl rfl (by decide)).2 (by decide)) 6 (by decide)).1 (by decide)

/-- Claim C10: an ACCESS_PARAMS write whose decoded cmd is neither READ_BUFFER
nor WRITE_BUFFER still overwrites the latched channel, size and address
registers from the guest struct, leaves the status register (and every
other field) unchanged and writes nothing back to guest memory; with
params_addr 0 the write changes no device state at all. -/
theorem access_params_frame (env : HostEnv) (dev : PipeDevice) (v : Nat)
    (a32 : Aps32) (a64 : Aps64)
    (h32 : env.readAps32 dev.params_addr = a32)
    (h64 : env.readAps64 dev.params_addr = a64) :
    (dev.params_addr = 0 → pipe_dev_write env dev PipeReg.accessParams v = (dev, none)) ∧
    (dev.params_addr ≠ 0 → a32.flags % 2 ^ 32 = 0 →
      a32.cmd % 2 ^ 32 ≠ PIPE_CMD_READ_BUFFER → a32.cmd % 2 ^ 32 ≠ PIPE_CMD_WRITE_BUFFER →
      pipe_dev_write env dev PipeReg.accessParams v =
        ({ dev with
           channel := a32.channel % 2 ^ 32,
           size := a32.size % 2 ^ 32,
           address := a32.address % 2 ^ 32 }, none)) ∧
    (dev.params_addr ≠ 0 → a32.flags % 2 ^ 32 ≠ 0 →
      a64.cmd % 2 ^ 32 ≠ PIPE_CMD_READ_BUFFER → a64.cmd % 2 ^ 32 ≠ PIPE_CMD_WRITE_BUFFER →
      pipe_dev_write env dev PipeReg.accessParams v =
        ({ dev with
           channel := a64.channel % 2 ^ 64,
           size := a64.size % 2 ^ 32,
           address := a64.address % 2 ^ 64 }, none)) := by
  refine ⟨fun hz => ?_, fun hpa hfl h1 h2 => ?_, fun hpa hfl h1 h2 => ?_⟩
  · simp only [pipe_dev_write, if_pos hz]
  · simp only [pipe_dev_write, if_neg hpa, h32]
    rw [if_pos hfl, if_pos ⟨h1, h2⟩]
    rfl
  · simp only [pipe_dev_write, if_neg hpa, h32, h64]
    rw [if_neg hfl, if_pos ⟨h1, h2⟩]
    rfl

/-- Counterexample to C3 as stated: on devC3 the CHANNEL read returns the
signaled channel's low id bits (1) and latches its wake mask (2), yet it
also deasserts the IRQ, because the consumed pipe was the last element of
the traversal list (android_pipe.c lines 579-584). -/
theorem channel_read_deassert_counterexample :
    (pipe_dev_read_channel devC3).value = 1 ∧
    (pipe_dev_read_channel devC3).dev.wakes = 2 ∧
    (pipe_dev_read_channel devC3).irq = some false := by decide

/-- Claim C3 as amended: during a CHANNEL read the IRQ is deasserted exactly when
the fast-path cache misses and either the traversal-list scan finds no
signaled channel while the list was non-empty before the read, or the scan
does find a signaled channel but it is the last element of the list;
during a CHANNEL_HIGH read the IRQ is deasserted exactly when the cache
misses, the scan finds no signaled channel and the list was non-empty.
Neither read ever asserts the IRQ. -/
theorem irq_deassert_characterization (dev : PipeDevice) :
    ((pipe_dev_read_channel dev).irq = some false ↔
      (get_and_clear_cache_pipe dev).1 = none ∧
        ((findSignaled dev.table dev.pipes = none ∧ dev.pipes ≠ []) ∨
          (∃ c : Nat, findSignaled dev.table dev.pipes = some (c, [])))) ∧
    ((pipe_dev_read_channel_high dev).irq = some false ↔
      (get_and_clear_cache_pipe dev).1 = none ∧
        findSignaled dev.table dev.pipes = none ∧ dev.pipes ≠ []) ∧
    (pipe_dev_read_channel dev).irq ≠ some true ∧
    (pipe_dev_read_channel_high dev).irq ≠ some true := by
  rcases hc64 : dev.cache_pipe_64bit with _ | c64
  · rcases hcp : dev.cache_pipe with _ | cp
    · rcases hf : findSignaled dev.table dev.pipes with _ | ⟨c, rest⟩
      · by_cases hp : dev.pipes = []
        · rw [hp] at hf
          simp [pipe_dev_read_channel, pipe_dev_read_channel_high,
            get_and_clear_cache_pipe, hc64, hcp, hf, hp]
        · simp [pipe_dev_read_channel, pipe_dev_read_channel_high,
            get_and_clear_cache_pipe, hc64, hcp, hf, hp]
      · rcases rest with _ | ⟨r, rs⟩ <;>
          simp [pipe_dev_read_channel, pipe_dev_read_channel_high,
            get_and_clear_cache_pipe, hc64, hcp, hf]
    · simp [pipe_dev_read_channel, pipe_dev_read_channel_high,
        get_and_clear_cache_pipe, hc64, hcp]
  · simp [pipe_dev_read_channel, pipe_dev_read_channel_high,
      get_and_clear_cache_pipe, hc64]

/-- Claim C6, evaluated at the failing input devC6: its only signaled channel has
id 1, whose high 32 bits are zero; the CHANNEL_HIGH read that selects it
hits assert((uint32_t)(pipe->channel >> 32) != 0) (android_pipe.c line
627), so with assertions compiled in the device aborts instead of returning
0 to terminate the drain loop; the would-be return value is 0. -/
theorem channel_high_zero_assert_fires :
    wantedIn devC6.table 1 = 2 ∧ devC6.pipes = [1] ∧
    (pipe_dev_read_channel_high devC6).fault = true ∧
    (pipe_dev_read_channel_high devC6).value = 0 := by decide

/-- Claim C4: whenever a CHANNEL_HIGH read selects a signaled channel c (through
the fast-path slot or the traversal-list scan) and returns the high 32 bits
of its id without faulting, the device afterwards holds c in
cache_pipe_64bit or at the head of the cursor list with its wanted mask
untouched, and the immediately following CHANNEL read returns the low 32
bits of the same channel's id. -/
theorem high_then_low_same_channel (dev : PipeDevice) (c : Nat)
    (hsel : (get_and_clear_cache_pipe dev).1 = some c ∨
      ((get_and_clear_cache_pipe dev).1 = none ∧
        ∃ rest : List Nat, findSignaled dev.table dev.pipes = some (c, rest)))
    (hhi : c / 2 ^ 32 % 2 ^ 32 ≠ 0) :
    (pipe_dev_read_channel_high dev).value = c / 2 ^ 32 % 2 ^ 32 ∧
    (pipe_dev_read_channel_high dev).fault = false ∧
    ((pipe_dev_read_channel_high dev).dev.cache_pipe_64bit = some c ∨
      (pipe_dev_read_channel_high dev).dev.pipes.head? = some c) ∧
    wantedIn (pipe_dev_read_channel_high dev).dev.table c = wantedIn dev.table c ∧
    (pipe_dev_read_channel (pipe_dev_read_channel_high dev).dev).value = c % 2 ^ 32 := by
  have hhib : (c / 2 ^ 32 % 2 ^ 32 == 0) = false := by
    simpa using hhi
  have hhin : ¬c / 4294967296 % 4294967296 = 0 := hhi
  rcases hc64 : dev.cache_pipe_64bit with _ | c64
  · rcases hcp : dev.cache_pipe with _ | cp
    · rcases hsel with hsome | ⟨-, rest, hf⟩
      · rw [get_and_clear_cache_pipe, hc64, hcp] at hsome
        exact absurd hsome (by simp)
      · have hw : wantedIn dev.table c ≠ 0 :=
          findSignaled_some_wanted dev.table dev.pipes c rest hf
        simp [pipe_dev_read_channel_high, pipe_dev_read_channel,
          get_and_clear_cache_pipe, hc64, hcp, hf, hhib, hhin, findSignaled, hw]
    · have hc : cp = c := by
        rw [get_and_clear_cache_pipe, hc64] at hsel
        rcases hsel with hsome | ⟨habs, -⟩
        · simpa [hcp] using hsome
        · simp [hcp] at habs
      subst hc
      simp [pipe_dev_read_channel_high, pipe_dev_read_channel,
        get_and_clear_cache_pipe, hc64, hcp, hhib, hhin, get_and_clear_pipe_wanted]
  · have hc : c64 = c := by
      rw [get_and_clear_cache_pipe, hc64] at hsel
      rcases hsel with hsome | ⟨habs, -⟩
      · simpa using hsome
      · simp at habs
    subst hc
    simp [pipe_dev_read_channel_high, pipe_dev_read_channel,
      get_and_clear_cache_pipe, hc64, hhib, hhin, get_and_clear_pipe_wanted]

/-- Witness for C4: on devC4 the CHANNEL_HIGH read selects channel
0x700000005 through the scan, returns 7, parks it at the cursor head, and
the following CHANNEL read returns 5. -/
theorem high_then_low_same_channel_witness :
    (pipe_dev_read_channel_high devC4).value = 7 ∧
    (pipe_dev_read_channel_high devC4).fault = false ∧
    ((pipe_dev_read_channel_high devC4).dev.cache_pipe_64bit = some 30064771077 ∨
      (pipe_dev_read_channel_high devC4).dev.pipes.head? = some 30064771077) ∧
    wantedIn (pipe_dev_read_channel_high devC4).dev.table 30064771077 =
      wantedIn devC4.table 30064771077 ∧
    (pipe_dev_read_channel (pipe_dev_read_channel_high devC4).dev).value = 5 :=
  high_then_low_same_channel devC4 30064771077
    (Or.inr ⟨by decide, [], by decide⟩) (by decide)

/-- Witness for C10: a params_addr-0 write on dev0 is a no-op, and env10's
32-bit struct with cmd 3 (POLL) only latches channel 7, size 2, address 40
on dev10, leaving its status -4 and producing no write-back. -/
theorem access_params_frame_witness :
    pipe_dev_write env0 dev0 PipeReg.accessParams 0 = (dev0, none) ∧
    pipe_dev_write env10 dev10 PipeReg.accessParams 0 =
      ({ dev10 with channel := 7, size := 2, address := 40 }, none) :=
  ⟨(access_params_frame env0 dev0 0 (env0.readAps32 0) (env0.readAps64 0)
      rfl rfl).1 (by decide),
   (access_params_frame env10 dev10 0
      { channel := 7, size := 2, address := 40, cmd := 3, result := 9, flags := 0 }
      (env10.readAps64 64) rfl rfl).2.1 (by decide) (by decide) (by decide) (by decide)⟩

/-! Helper lemmas for the wake/drain accumulation claim. -/

theorem foldl_or_mod (fs : List Nat) (h : ∀ f ∈ fs, f < 2 ^ 8) :
    ∀ a : Nat, fs.foldl (fun x f => x ||| f % 2 ^ 8) a = fs.foldl (fun x f => x ||| f) a := by
  induction fs with
  | nil => intro a; rfl
  | cons g gs ih =>
    intro a
    have hg : g % 2 ^ 8 = g := Nat.mod_eq_of_lt (h g (List.mem_cons_self g gs))
    simp only [List.foldl_cons, hg]
    exact ih (fun f hf => h f (List.mem_cons_of_mem g hf)) _

theorem wake_step (dev : PipeDevice) (c g : Nat) (p : PipeRec)
    (hlk : tlookup dev.table c = some p) (hcl : p.closed = false) :
    (qemu2_android_pipe_wake dev c g).1 =
      { dev with
        table := tmodify dev.table c (fun q => { q with wanted := q.wanted ||| g % 2 ^ 8 }),
        cache_pipe := some c } := by
  have hcl' : closedIn
      (tmodify dev.table c (fun q => { q with wanted := q.wanted ||| g % 2 ^ 8 })) c = false := by
    unfold closedIn
    rw [tlookup_tmodify_self, hlk]
    simpa using hcl
  simp only [qemu2_android_pipe_wake, set_pipe_wanted_bits, set_cache_pipe]
  rw [if_neg (by simpa using hcl')]

theorem applyWakes_state (c : Nat) :
    ∀ (fs : List Nat) (dev : PipeDevice) (p : PipeRec),
      tlookup dev.table c = some p → p.closed = false →
      tlookup (applyWakes dev c fs).table c =
        some { wanted := fs.foldl (fun a f => a ||| f % 2 ^ 8) p.wanted, closed := false } ∧
      (applyWakes dev c fs).cache_pipe = (if fs = [] then dev.cache_pipe else some c) ∧
      (applyWakes dev c fs).cache_pipe_64bit = dev.cache_pipe_64bit := by
  intro fs
  induction fs with
  | nil =>
    intro dev p hlk hcl
    rcases p with ⟨w, cl⟩
    cases hcl
    exact ⟨hlk, by simp [applyWakes], rfl⟩
  | cons g gs ih =>
    intro dev p hlk hcl
    have happ : applyWakes dev c (g :: gs) =
        applyWakes ((qemu2_android_pipe_wake dev c g).1) c gs := rfl
    rw [happ, wake_step dev c g p hlk hcl]
    have hlk2 : tlookup (tmodify dev.table c
        (fun q => { q with wanted := q.wanted ||| g % 2 ^ 8 })) c =
        some { wanted := p.wanted ||| g % 2 ^ 8, closed := false } := by
      rw [tlookup_tmodify_self, hlk]
      rcases p with ⟨w, cl⟩
      cases hcl
      rfl
    obtain ⟨h1, h2, h3⟩ := ih
      ({ dev with
         table := tmodify dev.table c (fun q => { q with wanted := q.wanted ||| g % 2 ^ 8 }),
         cache_pipe := some c })
      ({ wanted := p.wanted ||| g % 2 ^ 8, closed := false }) hlk2 rfl
    refine ⟨?_, ?_, h3⟩
    · exact h1
    · rw [h2]
      by_cases hgs : gs = [] <;> simp [hgs]

theorem high_read_preserves (d : PipeDevice) :
    (pipe_dev_read_channel_high d).dev.wakes = d.wakes ∧
    (pipe_dev_read_channel_high d).dev.table = d.table := by
  rcases hc64 : d.cache_pipe_64bit with _ | c64
  · rcases hcp : d.cache_pipe with _ | cp
    · rcases hf : findSignaled d.table d.pipes with _ | ⟨c, rest⟩
      · simp [pipe_dev_read_channel_high, get_and_clear_cache_pipe, hc64, hcp, hf]
      · simp [pipe_dev_read_channel_high, get_and_clear_cache_pipe, hc64, hcp, hf]
    · simp [pipe_dev_read_channel_high, get_and_clear_cache_pipe, hc64, hcp]
  · simp [pipe_dev_read_channel_high, get_and_clear_cache_pipe, hc64]

/-- Claim C9: starting from a live, non-closed channel c whose wanted mask is 0
(its state right after the previous drain) and an empty 64-bit shadow slot,
any non-empty sequence of host wake callbacks ORs its (8-bit) flags into
c's wanted mask and leaves c in the fast-path slot, so that the next
CHANNEL read selects c, latches the union of all deposited wake flags into
the wakes register, and clears c's wanted mask to 0 in the same step; the
CHANNEL_HIGH read completing the drain pair changes neither the wakes
register nor c's wanted mask. -/
theorem wake_then_drain (dev : PipeDevice) (c : Nat) (fs : List Nat) (p : PipeRec)
    (hlk : tlookup dev.table c = some p) (hw0 : p.wanted = 0) (hcl : p.closed = false)
    (hfs : ∀ f ∈ fs, f < 2 ^ 8) (hne : fs ≠ [])
    (h64 : dev.cache_pipe_64bit = none) :
    (pipe_dev_read_channel (applyWakes dev c fs)).value = c % 2 ^ 32 ∧
    (pipe_dev_read_channel (applyWakes dev c fs)).dev.wakes =
      fs.foldl (fun a f => a ||| f) 0 ∧
    wantedIn (pipe_dev_read_channel (applyWakes dev c fs)).dev.table c = 0 ∧
    (pipe_dev_read_channel_high
        (pipe_dev_read_channel (applyWakes dev c fs)).dev).dev.wakes =
      fs.foldl (fun a f => a ||| f) 0 ∧
    wantedIn (pipe_dev_read_channel_high
        (pipe_dev_read_channel (applyWakes dev c fs)).dev).dev.table c = 0 := by
  obtain ⟨hT, hC, h64p⟩ := applyWakes_state c fs dev p hlk hcl
  rw [hw0] at hT
  have hCs : (applyWakes dev c fs).cache_pipe = some c := by
    rw [hC, if_neg hne]
  have h64s : (applyWakes dev c fs).cache_pipe_64bit = none := by
    rw [h64p, h64]
  have hval : (pipe_dev_read_channel (applyWakes dev c fs)).value = c % 2 ^ 32 := by
    simp [pipe_dev_read_channel, get_and_clear_cache_pipe, h64s, hCs]
  have hwakes : (pipe_dev_read_channel (applyWakes dev c fs)).dev.wakes =
      fs.foldl (fun a f => a ||| f) 0 := by
    simp only [pipe_dev_read_channel, get_and_clear_cache_pipe, h64s, hCs,
      get_and_clear_pipe_wanted]
    show wantedIn (applyWakes dev c fs).table c = _
    unfold wantedIn
    rw [hT]
    exact foldl_or_mod fs hfs 0
  have htab : (pipe_dev_read_channel (applyWakes dev c fs)).dev.table =
      tmodify (applyWakes dev c fs).table c (fun q => { q with wanted := 0 }) := by
    simp [pipe_dev_read_channel, get_and_clear_cache_pipe, h64s, hCs,
      get_and_clear_pipe_wanted]
  have hwant0 : wantedIn (pipe_dev_read_channel (applyWakes dev c fs)).dev.table c = 0 := by
    rw [htab]
    unfold wantedIn
    rw [tlookup_tmodify_self, hT]
    rfl
  obtain ⟨hpw, hpt⟩ := high_read_preserves (pipe_dev_read_channel (applyWakes dev c fs)).dev
  refine ⟨hval, hwakes, hwant0, ?_, ?_⟩
  · rw [hpw, hwakes]
  · rw [hpt]
    exact hwant0

/-- Witness for C9: on dev0, host wakes with flags 2 then 4 on channel 5
followed by the drain pair give wakes = 6 and reset the wanted mask. -/
theorem wake_then_drain_witness :
    (pipe_dev_read_channel (applyWakes dev0 5 [2, 4])).value = 5 ∧
    (pipe_dev_read_channel (applyWakes dev0 5 [2, 4])).dev.wakes = 6 ∧
    wantedIn (pipe_dev_read_channel (applyWakes dev0 5 [2, 4])).dev.table 5 = 0 ∧
    (pipe_dev_read_channel_high
        (pipe_dev_read_channel (applyWakes dev0 5 [2, 4])).dev).dev.wakes = 6 ∧
    wantedIn (pipe_dev_read_channel_high
        (pipe_dev_read_channel (applyWakes dev0 5 [2, 4])).dev).dev.table 5 = 0 :=
  wake_then_drain dev0 5 [2, 4] { wanted := 0, closed := false }
    (by decide) (by decide) (by decide) (by decide) (by decide) (by decide)

end AndroidPipe
